import Mathlib

set_option maxHeartbeats 1000000
set_option linter.unusedVariables false

/- Shallow embedding of the nc (netcat) subsystem of containeers/netro
   (cmd/root.go).  Library calls made by the Go code (net.DialTimeout,
   url.Parse, conn.Write, http.ReadResponse, net.Listen, listener.Accept,
   PacketConn.ReadFrom / WriteTo) are modelled as oracles supplied by a
   World / ListenWorld value; each modelled function returns its Go return
   value together with the ordered list of its observable effects. -/

/-- Observable effects of the nc subsystem.  `dial`/`bindSock` are socket
operations (recorded even when the underlying call fails, since the attempt
touches the network stack); `connWrite` is a write on the client socket;
`spawnDirA`/`joinDirA` are the start of, and a (never performed) wait on, the
detached stdin-to-socket copy goroutine of the TCP relay handler;
`stdoutWrite` is one chunk relayed by the socket-to-stdout direction;
`sendTo` is a UDP WriteTo. -/
inductive Event where
  | dial (network address : String)
  | bindSock (network address : String)
  | accepted (id : Nat)
  | connWrite (data : String)
  | readResponse
  | closeBody
  | closeConn
  | print (line : String)
  | spawnDirA
  | joinDirA
  | stdoutWrite (chunk : String)
  | sendTo (addr data : String)
  deriving DecidableEq

deriving instance DecidableEq for Except

/-- Whether character list `s` starts with the character list `p`. -/
def startsWithL : List Char → List Char → Bool
  | [], _ => true
  | _ :: _, [] => false
  | a :: as, b :: bs => a == b && startsWithL as bs

/-- Whether the character list `pat` occurs contiguously inside `s`. -/
def substrB (pat : List Char) : List Char → Bool
  | [] => startsWithL pat []
  | b :: bs => startsWithL pat (b :: bs) || substrB pat bs

/-- Whether the string `pat` occurs contiguously inside the string `s`
(Go `strings.Contains s pat`). -/
def strContainsSub (s pat : String) : Bool :=
  substrB pat.data s.data

/-- Go `unicode.IsSpace` restricted to the Latin-1 range, as used by
`strings.TrimSpace`. -/
def isGoSpace (c : Char) : Bool :=
  c = ' ' || c = '\t' || c = '\n' || c = Char.ofNat 11 || c = Char.ofNat 12 ||
  c = '\r' || c = Char.ofNat 0x85 || c = Char.ofNat 0xA0

/-- Go `strings.TrimSpace`: removes leading and trailing whitespace. -/
def goTrimSpace (s : String) : String :=
  ⟨((s.data.dropWhile isGoSpace).reverse.dropWhile isGoSpace).reverse⟩

/-- Removal of trailing whitespace only.  This is not a function of the Go
code; it renders the phrase "the payload trimmed of trailing whitespace" so
that the corresponding specification sentence can be stated and compared with
the behaviour of `goTrimSpace` (what the code actually applies). -/
def trimTrailingSpace (s : String) : String :=
  ⟨(s.data.reverse.dropWhile isGoSpace).reverse⟩

/-- Go `net.JoinHostPort`: brackets the host when it contains a colon
(`bytealg.IndexByteString(host, ':') >= 0`). -/
def joinHostPort (host port : String) : String :=
  if host.data.any (fun c => c = ':') then "[" ++ host ++ "]:" ++ port
  else host ++ ":" ++ port

/-- The part of Go `url.URL` that executeTCPProxy uses (only `.Host`). -/
structure URLInfo where
  host : String
  deriving DecidableEq

/-- The part of Go `http.Response` that executeTCPProxy uses:
`StatusCode` (e.g. 407) and `Status` (e.g. "407 Proxy Authentication
Required"). -/
structure HTTPResponse where
  statusCode : Nat
  status : String
  deriving DecidableEq

/-- Outcomes of the library calls performed by the client-mode code paths.
`dialOutcome net addr` is the result of `net.DialTimeout(net, addr, timeout)`;
`parseURL` of `url.Parse`; `writeOutcome` of the CONNECT-request
`conn.Write`; `readRespOutcome` of `http.ReadResponse`. -/
structure World where
  dialOutcome : String → String → Except String Unit
  parseURL : String → Except String URLInfo
  writeOutcome : Except String Nat
  readRespOutcome : Except String HTTPResponse

/-- Return value of a client-mode run: the Go error (or nil) together with
the ordered observable effects. -/
structure ClientRun where
  result : Except String Unit
  events : List Event
  deriving DecidableEq

/-- cmd/root.go executeTCP: dial, report, close (the `defer conn.Close()`
runs after the confirmation print, at function return). -/
def executeTCP (address : String) (timeout : Nat) (w : World) : ClientRun :=
  match w.dialOutcome "tcp" address with
  | .error e =>
      ⟨.error ("failed to establish TCP connection: " ++ e), [.dial "tcp" address]⟩
  | .ok _ =>
      ⟨.ok (), [.dial "tcp" address,
                .print ("Connected to " ++ address ++ " (TCP)"),
                .closeConn]⟩

/-- cmd/root.go executeUDP: dial, report, close. -/
def executeUDP (address : String) (timeout : Nat) (w : World) : ClientRun :=
  match w.dialOutcome "udp" address with
  | .error e =>
      ⟨.error ("failed to establish UDP connection: " ++ e), [.dial "udp" address]⟩
  | .ok _ =>
      ⟨.ok (), [.dial "udp" address,
                .print ("Connected to " ++ address ++ " (UDP)"),
                .closeConn]⟩

/-- cmd/root.go executeTCPProxy: parse the proxy URL, dial the proxy host,
send the HTTP CONNECT request, read the proxy's HTTP response, and require
status code 200 (`http.StatusOK`).  `defer conn.Close()` is registered after
the successful dial and `defer resp.Body.Close()` after a successful parse,
so on return the body close precedes the connection close. -/
def executeTCPProxy (address : String) (timeout : Nat) (proxyURL : String)
    (w : World) : ClientRun :=
  match w.parseURL proxyURL with
  | .error e => ⟨.error ("invalid proxy URL: " ++ e), []⟩
  | .ok proxy =>
    match w.dialOutcome "tcp" proxy.host with
    | .error e =>
        ⟨.error ("failed to connect to proxy: " ++ e), [.dial "tcp" proxy.host]⟩
    | .ok _ =>
      match w.writeOutcome with
      | .error e =>
          ⟨.error ("failed to send CONNECT request: " ++ e),
           [.dial "tcp" proxy.host,
            .connWrite ("CONNECT " ++ address ++ " HTTP/1.1\r\nHost: " ++
                        address ++ "\r\n\r\n"),
            .closeConn]⟩
      | .ok _ =>
        match w.readRespOutcome with
        | .error e =>
            ⟨.error ("failed to read proxy response: " ++ e),
             [.dial "tcp" proxy.host,
              .connWrite ("CONNECT " ++ address ++ " HTTP/1.1\r\nHost: " ++
                          address ++ "\r\n\r\n"),
              .readResponse,
              .closeConn]⟩
        | .ok resp =>
          if resp.statusCode ≠ 200 then
            ⟨.error ("proxy connection failed: " ++ resp.status),
             [.dial "tcp" proxy.host,
              .connWrite ("CONNECT " ++ address ++ " HTTP/1.1\r\nHost: " ++
                          address ++ "\r\n\r\n"),
              .readResponse,
              .closeBody,
              .closeConn]⟩
          else
            ⟨.ok (),
             [.dial "tcp" proxy.host,
              .connWrite ("CONNECT " ++ address ++ " HTTP/1.1\r\nHost: " ++
                          address ++ "\r\n\r\n"),
              .readResponse,
              .print ("Connected to " ++ address ++ " through HTTP proxy " ++
                      proxyURL),
              .closeBody,
              .closeConn]⟩

/-- cmd/root.go executeNC: protocol dispatch.  The address is formed by
`net.JoinHostPort` (a pure string operation); `tcp` with a non-empty proxy
goes through the proxy path, `tcp` without one dials directly, `udp` always
dials directly, and any other protocol string is an error before any socket
operation. -/
def executeNC (host port protocol : String) (timeout : Nat) (proxy : String)
    (w : World) : ClientRun :=
  if protocol = "tcp" then
    if proxy ≠ "" then
      executeTCPProxy (joinHostPort host port) timeout proxy w
    else
      executeTCP (joinHostPort host port) timeout w
  else if protocol = "udp" then
    executeUDP (joinHostPort host port) timeout w
  else
    ⟨.error ("unsupported protocol: " ++ protocol), []⟩

/-- The client (non-listen) branch of the ncCmd Run closure: on an error
from executeNC it prints "Error executing nc: ..." and exits 1; otherwise the
command returns and the process exits 0. -/
def ncRunClient (host port protocol : String) (timeout : Nat) (proxy : String)
    (w : World) : Option Nat × List Event :=
  match executeNC host port protocol timeout proxy w with
  | ⟨.error msg, es⟩ => (some 1, es ++ [.print ("Error executing nc: " ++ msg)])
  | ⟨.ok _, es⟩ => (some 0, es)

/-- One iteration of the Go UDP handler loop as seen from outside: either
`conn.ReadFrom` fails, or it returns `n` bytes `payload` from `addr`, in
which case the subsequent `conn.WriteTo` of the acknowledgment either
succeeds (`writeErr = none`) or fails with the given error. -/
inductive UDPStep where
  | readErr (e : String)
  | recv (n : Nat) (addr : String) (payload : String) (writeErr : Option String)
  deriving DecidableEq

/-- Result of running the UDP handler on a finite prefix of loop iterations:
the effects, and whether the handler returned (`terminated = true`) or is
still inside its loop awaiting the next datagram. -/
structure UDPRun where
  events : List Event
  terminated : Bool
  deriving DecidableEq

/-- The fixed read buffer size of cmd/root.go handleUDPConnection
(`buf := make([]byte, 1024)`); a received datagram yields at most this many
bytes. -/
def udpBufSize : Nat := 1024

/-- cmd/root.go handleUDPConnection: loop reading one datagram at a time; a
read error prints and returns; otherwise print the sender and the
TrimSpace-d payload, send back the literal "Message received", and return on
a send error after printing it. -/
def handleUDPConnection : List UDPStep → UDPRun
  | [] => ⟨[], false⟩
  | .readErr e :: _ =>
      ⟨[.print ("Error reading from UDP connection: " ++ e)], true⟩
  | .recv n addr payload werr :: rest =>
    let line := "Received " ++ toString n ++ " bytes from " ++ addr ++ ": " ++
                goTrimSpace payload
    match werr with
    | some e =>
        ⟨[.print line, .sendTo addr "Message received",
          .print ("Error sending response: " ++ e)], true⟩
    | none =>
        let r := handleUDPConnection rest
        ⟨.print line :: .sendTo addr "Message received" :: r.events,
         r.terminated⟩

/-- cmd/root.go handleTCPConnection: `defer conn.Close()`, print the peer,
start the detached stdin-to-socket copy (`go io.Copy(conn, os.Stdin)`), then
run the socket-to-stdout copy inline; the deferred close runs as soon as that
copy (Direction B) returns.  `sockIn` is the chunk sequence Direction B
reads from the socket before it sees end-of-stream or an error. -/
def handleTCPConnection (remoteAddr : String) (sockIn : List String) :
    List Event :=
  .print ("Accepted connection from " ++ remoteAddr) :: .spawnDirA ::
    (sockIn.map Event.stdoutWrite ++ [.closeConn])

/-- Terminal state of the listen-mode control flow on the supplied finite
trace of library outcomes. -/
inductive LoopState where
  | stillRunning
  | returnedOk
  | returnedErr (msg : String)
  deriving DecidableEq

/-- Outcomes of the library calls performed by listen mode: the results of
`net.Listen` / `net.ListenPacket` for the given network and address, the
successive results of `listener.Accept` (an accepted connection is
identified by a number), and the successive UDP loop iterations. -/
structure ListenWorld where
  bindOutcome : String → String → Except String Unit
  accepts : List (Except String Nat)
  udpSteps : List UDPStep

/-- Result of a listen-mode run. -/
structure ListenRun where
  state : LoopState
  events : List Event
  deriving DecidableEq

/-- The unbounded accept loop of executeNCListen: each successful accept
spawns a handler goroutine and continues; the first accept error makes the
whole function return that error. -/
def acceptLoop : List (Except String Nat) → List Event × LoopState
  | [] => ([], .stillRunning)
  | .error e :: _ => ([], .returnedErr ("failed to accept connection: " ++ e))
  | .ok c :: rest =>
      let r := acceptLoop rest
      (.accepted c :: r.1, r.2)

/-- Events `deferred listener.Close()` contributes once the loop exits. -/
def closeEvents : LoopState → List Event
  | .stillRunning => []
  | .returnedOk => [.closeConn]
  | .returnedErr _ => [.closeConn]

/-- cmd/root.go executeNCListen: bind on all interfaces
(`net.JoinHostPort("", port)`), then for tcp run the accept loop and for udp
run handleUDPConnection on the single packet socket; any other protocol is an
error before any socket operation.  A bind failure is returned before any
further effect; the deferred close of the listening socket runs when the
function returns. -/
def executeNCListen (port protocol : String) (w : ListenWorld) : ListenRun :=
  if protocol = "tcp" then
    match w.bindOutcome "tcp" (joinHostPort "" port) with
    | .error e => ⟨.returnedErr ("failed to start TCP listener: " ++ e), []⟩
    | .ok _ =>
      let r := acceptLoop w.accepts
      ⟨r.2, .bindSock "tcp" (joinHostPort "" port) ::
            .print ("Listening on " ++ joinHostPort "" port ++ " (TCP)") ::
            (r.1 ++ closeEvents r.2)⟩
  else if protocol = "udp" then
    match w.bindOutcome "udp" (joinHostPort "" port) with
    | .error e => ⟨.returnedErr ("failed to start UDP listener: " ++ e), []⟩
    | .ok _ =>
      let r := handleUDPConnection w.udpSteps
      ⟨if r.terminated then .returnedOk else .stillRunning,
       .bindSock "udp" (joinHostPort "" port) ::
       .print ("Listening on " ++ joinHostPort "" port ++ " (UDP)") ::
       (r.events ++ if r.terminated then [.closeConn] else [])⟩
  else
    ⟨.returnedErr ("unsupported protocol: " ++ protocol), []⟩

/-- The listen branch of the ncCmd Run closure: an error from executeNCListen
is printed as "Error executing nc listen: ..." followed by `os.Exit(1)`; a
nil return lets the command finish and the process exit 0; while the loop is
still running no exit status exists yet. -/
def ncRunListen (port protocol : String) (w : ListenWorld) :
    Option Nat × List Event :=
  match executeNCListen port protocol w with
  | ⟨.returnedErr msg, es⟩ =>
      (some 1, es ++ [.print ("Error executing nc listen: " ++ msg)])
  | ⟨.returnedOk, es⟩ => (some 0, es)
  | ⟨.stillRunning, es⟩ => (none, es)

/-- Every step of the list is a successfully acknowledged datagram. -/
def cleanUDP : List UDPStep → Bool
  | [] => true
  | .recv _ _ _ none :: rest => cleanUDP rest
  | _ => false

/-- Every element is a successful accept. -/
def cleanAccepts : List (Except String Nat) → Bool
  | [] => true
  | .ok _ :: rest => cleanAccepts rest
  | .error _ :: _ => false

/-- The effects of a run of successfully acknowledged datagrams. -/
def udpPrefixEvents : List UDPStep → List Event
  | [] => []
  | .recv n addr payload _ :: rest =>
      .print ("Received " ++ toString n ++ " bytes from " ++ addr ++ ": " ++
              goTrimSpace payload) ::
      .sendTo addr "Message received" :: udpPrefixEvents rest
  | .readErr _ :: rest => udpPrefixEvents rest

/-- The spawn events contributed by a run of successful accepts. -/
def acceptedEvents : List (Except String Nat) → List Event
  | [] => []
  | .ok c :: rest => .accepted c :: acceptedEvents rest
  | .error _ :: rest => acceptedEvents rest

theorem strData_append (a b : String) : (a ++ b).data = a.data ++ b.data := rfl

theorem startsWithL_self_append (p s : List Char) :
    startsWithL p (p ++ s) = true := by
  induction p with
  | nil => simp [startsWithL]
  | cons a as ih => simp [startsWithL, ih]

theorem substrB_nil_pat (s : List Char) : substrB [] s = true := by
  cases s <;> simp [substrB, startsWithL]

theorem substrB_self_append (p s : List Char) : substrB p (p ++ s) = true := by
  cases p with
  | nil => exact substrB_nil_pat s
  | cons a as =>
    show substrB (a :: as) (a :: (as ++ s)) = true
    simp [substrB]
    exact Or.inl (startsWithL_self_append (a :: as) s)

theorem substrB_append_left (p pre s : List Char) (h : substrB p s = true) :
    substrB p (pre ++ s) = true := by
  induction pre with
  | nil => simpa using h
  | cons c cs ih =>
    show substrB p (c :: (cs ++ s)) = true
    simp [substrB, ih]

theorem strContainsSub_of_data (s pat : String) (pre suf : List Char)
    (h : s.data = pre ++ (pat.data ++ suf)) : strContainsSub s pat = true := by
  show substrB pat.data s.data = true
  rw [h]
  exact substrB_append_left _ _ _ (substrB_self_append _ _)

theorem handleUDP_clean_append (pre l : List UDPStep)
    (h : cleanUDP pre = true) :
    handleUDPConnection (pre ++ l) =
      ⟨udpPrefixEvents pre ++ (handleUDPConnection l).events,
       (handleUDPConnection l).terminated⟩ := by
  induction pre with
  | nil => simp [udpPrefixEvents]
  | cons s rest ih =>
    cases s with
    | readErr e => simp [cleanUDP] at h
    | recv n addr payload werr =>
      cases werr with
      | some e => simp [cleanUDP] at h
      | none =>
        have h' : cleanUDP rest = true := by simpa [cleanUDP] using h
        simp [handleUDPConnection, udpPrefixEvents, ih h']

theorem acceptLoop_clean_append (pre l : List (Except String Nat))
    (h : cleanAccepts pre = true) :
    acceptLoop (pre ++ l) =
      (acceptedEvents pre ++ (acceptLoop l).1, (acceptLoop l).2) := by
  induction pre with
  | nil => simp [acceptedEvents]
  | cons s rest ih =>
    cases s with
    | error e => simp [cleanAccepts] at h
    | ok c =>
      have h' : cleanAccepts rest = true := by simpa [cleanAccepts] using h
      simp [acceptLoop, acceptedEvents, ih h']

/-- C1: in client mode with protocol tcp and a non-empty, well-formed proxy
URL (url.Parse succeeds) whose host is reachable, the proxy negotiator writes
the request "CONNECT target HTTP/1.1" with a Host header equal to the target
address; once the proxy's response is written and parsed, the negotiation
succeeds if and only if the status code is 200, and for any other status it
returns an error whose text includes the proxy's status line. -/
theorem c1_connect_negotiation (host port : String) (timeout : Nat)
    (proxy : String) (w : World) (u : URLInfo) (resp : HTTPResponse) (n : Nat)
    (hproxy : proxy ≠ "")
    (hparse : w.parseURL proxy = .ok u)
    (hdial : w.dialOutcome "tcp" u.host = .ok ()) :
    Event.connWrite ("CONNECT " ++ joinHostPort host port ++
        " HTTP/1.1\r\nHost: " ++ joinHostPort host port ++ "\r\n\r\n")
      ∈ (executeNC host port "tcp" timeout proxy w).events
    ∧ (w.writeOutcome = .ok n → w.readRespOutcome = .ok resp →
        Event.readResponse ∈ (executeNC host port "tcp" timeout proxy w).events
        ∧ ((executeNC host port "tcp" timeout proxy w).result = .ok ()
            ↔ resp.statusCode = 200)
        ∧ (resp.statusCode ≠ 200 →
            (executeNC host port "tcp" timeout proxy w).result
              = .error ("proxy connection failed: " ++ resp.status)
            ∧ strContainsSub ("proxy connection failed: " ++ resp.status)
                resp.status = true)) := by
  have hnc : executeNC host port "tcp" timeout proxy w
      = executeTCPProxy (joinHostPort host port) timeout proxy w := by
    simp [executeNC, hproxy]
  rw [hnc]
  have hcontains : strContainsSub ("proxy connection failed: " ++ resp.status)
      resp.status = true := by
    refine strContainsSub_of_data _ _ ("proxy connection failed: ".data) [] ?_
    simp [strData_append]
  constructor
  · cases hw : w.writeOutcome with
    | error e => simp [executeTCPProxy, hparse, hdial, hw]
    | ok m =>
      cases hr : w.readRespOutcome with
      | error e => simp [executeTCPProxy, hparse, hdial, hw, hr]
      | ok resp' =>
        by_cases hs : resp'.statusCode = 200 <;>
          simp [executeTCPProxy, hparse, hdial, hw, hr, hs]
  · intro hw hr
    by_cases hs : resp.statusCode = 200
    · simp [executeTCPProxy, hparse, hdial, hw, hr, hs]
    · simp [executeTCPProxy, hparse, hdial, hw, hr, hs, hcontains]

/-- Concrete instance of c1_connect_negotiation: target h:80 through proxy
http://p:9, proxy answering 407 Proxy Authentication Required. -/
theorem c1_connect_negotiation_witness :
    Event.connWrite ("CONNECT " ++ joinHostPort "h" "80" ++
        " HTTP/1.1\r\nHost: " ++ joinHostPort "h" "80" ++ "\r\n\r\n")
      ∈ (executeNC "h" "80" "tcp" 5 "http://p:9"
          { dialOutcome := fun _ _ => .ok (),
            parseURL := fun _ => .ok ⟨"p:9"⟩,
            writeOutcome := .ok 7,
            readRespOutcome :=
              .ok ⟨407, "407 Proxy Authentication Required"⟩ }).events
    ∧ ((executeNC "h" "80" "tcp" 5 "http://p:9"
          { dialOutcome := fun _ _ => .ok (),
            parseURL := fun _ => .ok ⟨"p:9"⟩,
            writeOutcome := .ok 7,
            readRespOutcome :=
              .ok ⟨407, "407 Proxy Authentication Required"⟩ }).result
          = .error ("proxy connection failed: " ++
              "407 Proxy Authentication Required")
        ∧ strContainsSub ("proxy connection failed: " ++
              "407 Proxy Authentication Required")
            "407 Proxy Authentication Required" = true) := by
  have h := c1_connect_negotiation "h" "80" 5 "http://p:9"
    { dialOutcome := fun _ _ => .ok (),
      parseURL := fun _ => .ok ⟨"p:9"⟩,
      writeOutcome := .ok 7,
      readRespOutcome := .ok ⟨407, "407 Proxy Authentication Required"⟩ }
    ⟨"p:9"⟩ ⟨407, "407 Proxy Authentication Required"⟩ 7
    (by decide) rfl rfl
  exact ⟨h.1, (h.2 rfl rfl).2.2 (by decide)⟩

/-- C2 counterexample: a successful TCP connection through an HTTP proxy
prints exactly one confirmation line, which names the resolved address and
the proxy URL but not the protocol (neither "tcp" nor "TCP" occurs in it),
contradicting the claim that every successful client-mode confirmation
contains the protocol. -/
theorem c2_client_confirmation_cex :
    (executeNC "h" "80" "tcp" 5 "http://p:9"
      { dialOutcome := fun _ _ => .ok (),
        parseURL := fun _ => .ok ⟨"p:9"⟩,
        writeOutcome := .ok 7,
        readRespOutcome := .ok ⟨200, "200 Connection Established"⟩ }).result
      = .ok ()
    ∧ (executeNC "h" "80" "tcp" 5 "http://p:9"
        { dialOutcome := fun _ _ => .ok (),
          parseURL := fun _ => .ok ⟨"p:9"⟩,
          writeOutcome := .ok 7,
          readRespOutcome := .ok ⟨200, "200 Connection Established"⟩ }).events
      = [.dial "tcp" "p:9",
         .connWrite "CONNECT h:80 HTTP/1.1\r\nHost: h:80\r\n\r\n",
         .readResponse,
         .print "Connected to h:80 through HTTP proxy http://p:9",
         .closeBody, .closeConn]
    ∧ strContainsSub "Connected to h:80 through HTTP proxy http://p:9" "tcp"
        = false
    ∧ strContainsSub "Connected to h:80 through HTTP proxy http://p:9" "TCP"
        = false := by
  decide

/-- C2 amended: every client-mode connection request that succeeds prints a
confirmation containing the resolved address and then closes the connection
without relaying any payload bytes (the only socket write ever performed is
the CONNECT request of the proxy handshake); the direct TCP and UDP
confirmations also name the protocol, but the proxy-path confirmation names
the proxy URL instead of the protocol. -/
theorem c2_client_success (host port protocol : String) (timeout : Nat)
    (proxy : String) (w : World)
    (h : (executeNC host port protocol timeout proxy w).result = .ok ()) :
    ∃ line : String,
      Event.print line ∈ (executeNC host port protocol timeout proxy w).events
      ∧ strContainsSub line (joinHostPort host port) = true
      ∧ (executeNC host port protocol timeout proxy w).events.getLast?
          = some Event.closeConn
      ∧ (∀ c, Event.stdoutWrite c
              ∉ (executeNC host port protocol timeout proxy w).events)
      ∧ (∀ d, Event.connWrite d
                ∈ (executeNC host port protocol timeout proxy w).events →
            d = "CONNECT " ++ joinHostPort host port ++
                " HTTP/1.1\r\nHost: " ++ joinHostPort host port ++ "\r\n\r\n")
      ∧ (protocol = "udp" →
            line = "Connected to " ++ joinHostPort host port ++ " (UDP)")
      ∧ (protocol = "tcp" → proxy = "" →
            line = "Connected to " ++ joinHostPort host port ++ " (TCP)")
      ∧ (protocol = "tcp" → proxy ≠ "" →
            line = "Connected to " ++ joinHostPort host port ++
                   " through HTTP proxy " ++ proxy) := by
  by_cases hp : protocol = "tcp"
  · subst hp
    by_cases hx : proxy = ""
    · subst hx
      cases hd : w.dialOutcome "tcp" (joinHostPort host port) with
      | error e => simp [executeNC, executeTCP, hd] at h
      | ok _ =>
        refine ⟨"Connected to " ++ joinHostPort host port ++ " (TCP)",
          ?_, ?_, ?_, ?_, ?_, ?_, ?_, ?_⟩
        · simp [executeNC, executeTCP, hd]
        · refine strContainsSub_of_data _ _ ("Connected to ".data)
            (" (TCP)".data) ?_
          simp [strData_append]
        · simp [executeNC, executeTCP, hd, List.getLast?]
        · intro c; simp [executeNC, executeTCP, hd]
        · intro d hd'; simp [executeNC, executeTCP, hd] at hd'
        · intro habs; exact absurd habs (by decide)
        · intro _ _; rfl
        · intro _ hne; exact absurd rfl hne
    · cases hpu : w.parseURL proxy with
      | error e => simp [executeNC, executeTCPProxy, hx, hpu] at h
      | ok u =>
        cases hd : w.dialOutcome "tcp" u.host with
        | error e => simp [executeNC, executeTCPProxy, hx, hpu, hd] at h
        | ok _ =>
          cases hw : w.writeOutcome with
          | error e =>
            simp [executeNC, executeTCPProxy, hx, hpu, hd, hw] at h
          | ok m =>
            cases hr : w.readRespOutcome with
            | error e =>
              simp [executeNC, executeTCPProxy, hx, hpu, hd, hw, hr] at h
            | ok resp =>
              by_cases hs : resp.statusCode = 200
              · refine ⟨"Connected to " ++ joinHostPort host port ++
                  " through HTTP proxy " ++ proxy, ?_, ?_, ?_, ?_, ?_, ?_,
                  ?_, ?_⟩
                · simp [executeNC, executeTCPProxy, hx, hpu, hd, hw, hr, hs]
                · refine strContainsSub_of_data _ _ ("Connected to ".data)
                    (" through HTTP proxy ".data ++ proxy.data) ?_
                  simp [strData_append]
                · simp [executeNC, executeTCPProxy, hx, hpu, hd, hw, hr, hs,
                    List.getLast?]
                · intro c
                  simp [executeNC, executeTCPProxy, hx, hpu, hd, hw, hr, hs]
                · intro d hd'
                  simp [executeNC, executeTCPProxy, hx, hpu, hd, hw, hr, hs]
                    at hd'
                  exact hd'
                · intro habs; exact absurd habs (by decide)
                · intro _ habs; exact absurd habs hx
                · intro _ _; rfl
              · simp [executeNC, executeTCPProxy, hx, hpu, hd, hw, hr, hs]
                  at h
  · by_cases hu : protocol = "udp"
    · subst hu
      cases hd : w.dialOutcome "udp" (joinHostPort host port) with
      | error e => simp [executeNC, executeUDP, hd] at h
      | ok _ =>
        refine ⟨"Connected to " ++ joinHostPort host port ++ " (UDP)",
          ?_, ?_, ?_, ?_, ?_, ?_, ?_, ?_⟩
        · simp [executeNC, executeUDP, hd]
        · refine strContainsSub_of_data _ _ ("Connected to ".data)
            (" (UDP)".data) ?_
          simp [strData_append]
        · simp [executeNC, executeUDP, hd, List.getLast?]
        · intro c; simp [executeNC, executeUDP, hd]
        · intro d hd'; simp [executeNC, executeUDP, hd] at hd'
        · intro _; rfl
        · intro habs; exact absurd habs (by decide)
        · intro habs; exact absurd habs (by decide)
    · simp [executeNC, hp, hu] at h

/-- Concrete instance of c2_client_success: a direct TCP dial of h:80. -/
theorem c2_client_success_witness :
    ∃ line : String,
      Event.print line ∈ (executeNC "h" "80" "tcp" 5 ""
        { dialOutcome := fun _ _ => .ok (), parseURL := fun _ => .error "x",
          writeOutcome := .ok 0, readRespOutcome := .error "x" }).events
      ∧ strContainsSub line (joinHostPort "h" "80") = true
      ∧ (executeNC "h" "80" "tcp" 5 ""
          { dialOutcome := fun _ _ => .ok (), parseURL := fun _ => .error "x",
            writeOutcome := .ok 0, readRespOutcome := .error "x" }).events.getLast?
          = some Event.closeConn
      ∧ (∀ c, Event.stdoutWrite c ∉ (executeNC "h" "80" "tcp" 5 ""
          { dialOutcome := fun _ _ => .ok (), parseURL := fun _ => .error "x",
            writeOutcome := .ok 0, readRespOutcome := .error "x" }).events)
      ∧ (∀ d, Event.connWrite d ∈ (executeNC "h" "80" "tcp" 5 ""
            { dialOutcome := fun _ _ => .ok (), parseURL := fun _ => .error "x",
              writeOutcome := .ok 0, readRespOutcome := .error "x" }).events →
            d = "CONNECT " ++ joinHostPort "h" "80" ++
                " HTTP/1.1\r\nHost: " ++ joinHostPort "h" "80" ++ "\r\n\r\n")
      ∧ ("tcp" = "udp" →
            line = "Connected to " ++ joinHostPort "h" "80" ++ " (UDP)")
      ∧ ("tcp" = "tcp" → "" = "" →
            line = "Connected to " ++ joinHostPort "h" "80" ++ " (TCP)")
      ∧ ("tcp" = "tcp" → ("" : String) ≠ "" →
            line = "Connected to " ++ joinHostPort "h" "80" ++
                   " through HTTP proxy " ++ "") :=
  c2_client_success "h" "80" "tcp" 5 ""
    { dialOutcome := fun _ _ => .ok (), parseURL := fun _ => .error "x",
      writeOutcome := .ok 0, readRespOutcome := .error "x" } (by decide)

/-- C3: in TCP listen mode, an error returned by accept terminates the whole
listener: the loop stops (the run is identical to one in which the accepts
after the error never happen, so no later connection is served), the error
propagates out of executeNCListen, and the command exits with status 1 after
printing the error. -/
theorem c3_accept_error_fatal (port : String) (w : ListenWorld)
    (pre post : List (Except String Nat)) (e : String)
    (hclean : cleanAccepts pre = true)
    (hacc : w.accepts = pre ++ Except.error e :: post)
    (hbind : w.bindOutcome "tcp" (joinHostPort "" port) = .ok ()) :
    (executeNCListen port "tcp" w).state
        = .returnedErr ("failed to accept connection: " ++ e)
    ∧ executeNCListen port "tcp" w
        = executeNCListen port "tcp" { w with accepts := pre ++ [.error e] }
    ∧ (ncRunListen port "tcp" w).1 = some 1
    ∧ Event.print ("Error executing nc listen: " ++
          ("failed to accept connection: " ++ e))
        ∈ (ncRunListen port "tcp" w).2 := by
  have hl1 := acceptLoop_clean_append pre (Except.error e :: post) hclean
  have hl2 := acceptLoop_clean_append pre [Except.error e] hclean
  have hstate : executeNCListen port "tcp" w =
      ⟨.returnedErr ("failed to accept connection: " ++ e),
       .bindSock "tcp" (joinHostPort "" port) ::
       .print ("Listening on " ++ joinHostPort "" port ++ " (TCP)") ::
       (acceptedEvents pre ++ [.closeConn])⟩ := by
    simp [executeNCListen, hbind, hacc, hl1, acceptLoop, closeEvents]
  have hstate2 : executeNCListen port "tcp"
      { w with accepts := pre ++ [.error e] } =
      ⟨.returnedErr ("failed to accept connection: " ++ e),
       .bindSock "tcp" (joinHostPort "" port) ::
       .print ("Listening on " ++ joinHostPort "" port ++ " (TCP)") ::
       (acceptedEvents pre ++ [.closeConn])⟩ := by
    simp [executeNCListen, hbind, hl2, acceptLoop, closeEvents]
  refine ⟨by rw [hstate], by rw [hstate, hstate2], ?_, ?_⟩
  · simp [ncRunListen, hstate]
  · simp [ncRunListen, hstate]

/-- Concrete instance of c3_accept_error_fatal: one accepted connection,
then accept fails with "boom" while one more client is still queued. -/
theorem c3_accept_error_fatal_witness :
    (executeNCListen "9" "tcp"
      { bindOutcome := fun _ _ => .ok (),
        accepts := [.ok 0, .error "boom", .ok 1], udpSteps := [] }).state
        = .returnedErr ("failed to accept connection: " ++ "boom")
    ∧ executeNCListen "9" "tcp"
        { bindOutcome := fun _ _ => .ok (),
          accepts := [.ok 0, .error "boom", .ok 1], udpSteps := [] }
        = executeNCListen "9" "tcp"
          { (⟨fun _ _ => .ok (), [.ok 0, .error "boom", .ok 1], []⟩ :
              ListenWorld) with accepts := [.ok 0] ++ [.error "boom"] }
    ∧ (ncRunListen "9" "tcp"
        { bindOutcome := fun _ _ => .ok (),
          accepts := [.ok 0, .error "boom", .ok 1], udpSteps := [] }).1
        = some 1
    ∧ Event.print ("Error executing nc listen: " ++
          ("failed to accept connection: " ++ "boom"))
        ∈ (ncRunListen "9" "tcp"
            { bindOutcome := fun _ _ => .ok (),
              accepts := [.ok 0, .error "boom", .ok 1], udpSteps := [] }).2 :=
  c3_accept_error_fatal "9"
    { bindOutcome := fun _ _ => .ok (),
      accepts := [.ok 0, .error "boom", .ok 1], udpSteps := [] }
    [.ok 0] [.ok 1] "boom" (by decide) rfl rfl

/-- C4 counterexample: the code applies strings.TrimSpace, which removes
leading whitespace as well.  For the 4-byte datagram "  hi" the handler
prints "Received 4 bytes from 1.2.3.4: hi", and no printed line contains the
payload trimmed of (only) trailing whitespace, which is "  hi". -/
theorem c4_udp_echo_cex :
    (handleUDPConnection [.recv 4 "1.2.3.4" "  hi" none]).events
      = [.print "Received 4 bytes from 1.2.3.4: hi",
         .sendTo "1.2.3.4" "Message received"]
    ∧ trimTrailingSpace "  hi" = "  hi"
    ∧ ((handleUDPConnection [.recv 4 "1.2.3.4" "  hi" none]).events.all
        (fun ev => match ev with
          | .print l => !(strContainsSub l "1.2.3.4" &&
                          strContainsSub l (trimTrailingSpace "  hi"))
          | _ => true)) = true := by
  decide

/-- C4 amended: in UDP listen mode, every datagram received (read into the
fixed 1024-byte buffer) makes the handler print a log line containing the
sender's address and the payload trimmed of leading and trailing whitespace
(strings.TrimSpace), and send the literal acknowledgment "Message received"
back to the sender's address; a read error terminates the handler entirely
(later iterations never happen) after printing the read error. -/
theorem c4_udp_echo (pre : List UDPStep) (n : Nat) (addr payload e : String)
    (post : List UDPStep)
    (hclean : cleanUDP pre = true) (hn : n ≤ udpBufSize) :
    (Event.print ("Received " ++ toString n ++ " bytes from " ++ addr ++
          ": " ++ goTrimSpace payload)
        ∈ (handleUDPConnection (pre ++ [.recv n addr payload none])).events
     ∧ Event.sendTo addr "Message received"
        ∈ (handleUDPConnection (pre ++ [.recv n addr payload none])).events
     ∧ strContainsSub ("Received " ++ toString n ++ " bytes from " ++ addr ++
          ": " ++ goTrimSpace payload) addr = true
     ∧ strContainsSub ("Received " ++ toString n ++ " bytes from " ++ addr ++
          ": " ++ goTrimSpace payload) (goTrimSpace payload) = true)
    ∧ ((handleUDPConnection (pre ++ .readErr e :: post)).terminated = true
       ∧ handleUDPConnection (pre ++ .readErr e :: post)
           = handleUDPConnection (pre ++ [.readErr e])
       ∧ (handleUDPConnection (pre ++ .readErr e :: post)).events.getLast?
           = some (.print ("Error reading from UDP connection: " ++ e))) := by
  have h1 := handleUDP_clean_append pre [.recv n addr payload none] hclean
  have h2 := handleUDP_clean_append pre (.readErr e :: post) hclean
  have h3 := handleUDP_clean_append pre [.readErr e] hclean
  refine ⟨⟨?_, ?_, ?_, ?_⟩, ?_, ?_, ?_⟩
  · rw [h1]; simp [handleUDPConnection]
  · rw [h1]; simp [handleUDPConnection]
  · refine strContainsSub_of_data _ _
      (("Received " ++ toString n ++ " bytes from ").data)
      ((": " ++ goTrimSpace payload).data) ?_
    simp [strData_append, List.append_assoc]
  · refine strContainsSub_of_data _ _
      (("Received " ++ toString n ++ " bytes from " ++ addr ++ ": ").data)
      [] ?_
    simp [strData_append, List.append_assoc]
  · rw [h2]; rfl
  · rw [h2, h3]; rfl
  · rw [h2]
    show (udpPrefixEvents pre ++
        [Event.print ("Error reading from UDP connection: " ++ e)]).getLast?
      = some (.print ("Error reading from UDP connection: " ++ e))
    exact List.getLast?_concat _

/-- Concrete instance of c4_udp_echo: the 4-byte datagram "ping" from
1.2.3.4:5678, then the socket read failing with "closed". -/
theorem c4_udp_echo_witness :
    Event.print ("Received " ++ toString 4 ++ " bytes from " ++
        "1.2.3.4:5678" ++ ": " ++ goTrimSpace "ping")
      ∈ (handleUDPConnection [.recv 4 "1.2.3.4:5678" "ping" none]).events
    ∧ Event.sendTo "1.2.3.4:5678" "Message received"
      ∈ (handleUDPConnection [.recv 4 "1.2.3.4:5678" "ping" none]).events
    ∧ (handleUDPConnection [UDPStep.readErr "closed"]).terminated = true := by
  have h := c4_udp_echo [] 4 "1.2.3.4:5678" "ping" "closed" []
    (by decide) (by decide)
  exact ⟨by simpa using h.1.1, by simpa using h.1.2.1, by simpa using h.2.1⟩

/-- C10: in UDP listen mode an error on the acknowledgment WriteTo also
terminates the handler entirely: the loop body returns after printing
"Error sending response: ...", later iterations never happen, and that error
line is the last effect. -/
theorem c10_udp_send_error_fatal (pre : List UDPStep) (n : Nat)
    (addr payload e : String) (post : List UDPStep)
    (hclean : cleanUDP pre = true) :
    (handleUDPConnection
        (pre ++ .recv n addr payload (some e) :: post)).terminated = true
    ∧ handleUDPConnection (pre ++ .recv n addr payload (some e) :: post)
        = handleUDPConnection (pre ++ [.recv n addr payload (some e)])
    ∧ (handleUDPConnection
        (pre ++ .recv n addr payload (some e) :: post)).events.getLast?
        = some (.print ("Error sending response: " ++ e)) := by
  have h2 := handleUDP_clean_append pre (.recv n addr payload (some e) :: post)
    hclean
  have h3 := handleUDP_clean_append pre [.recv n addr payload (some e)] hclean
  refine ⟨by rw [h2]; rfl, by rw [h2, h3]; rfl, ?_⟩
  rw [h2]
  show (udpPrefixEvents pre ++
      ([Event.print ("Received " ++ toString n ++ " bytes from " ++ addr ++
          ": " ++ goTrimSpace payload),
        Event.sendTo addr "Message received"] ++
       [Event.print ("Error sending response: " ++ e)])).getLast?
    = some (.print ("Error sending response: " ++ e))
  rw [← List.append_assoc]
  exact List.getLast?_concat _

/-- Concrete instance of c10_udp_send_error_fatal: the reply to the datagram
"ping" fails with "unreachable" and the handler stops. -/
theorem c10_udp_send_error_fatal_witness :
    (handleUDPConnection
        [.recv 4 "1.2.3.4:5678" "ping" (some "unreachable"),
         .recv 2 "5.6.7.8:9" "hi" none]).terminated = true
    ∧ handleUDPConnection
        [.recv 4 "1.2.3.4:5678" "ping" (some "unreachable"),
         .recv 2 "5.6.7.8:9" "hi" none]
        = handleUDPConnection
            ([] ++ [.recv 4 "1.2.3.4:5678" "ping" (some "unreachable")])
    ∧ (handleUDPConnection
        [.recv 4 "1.2.3.4:5678" "ping" (some "unreachable"),
         .recv 2 "5.6.7.8:9" "hi" none]).events.getLast?
        = some (.print ("Error sending response: " ++ "unreachable")) :=
  c10_udp_send_error_fatal [] 4 "1.2.3.4:5678" "ping" "unreachable"
    [.recv 2 "5.6.7.8:9" "hi" none] (by decide)

/-- C5 counterexample: an invocation with protocol udp and a malformed proxy
URL (url.Parse fails on it) is not rejected: the UDP dial (a socket
operation) is performed and the run succeeds, so a malformed proxy URL is
not rejected before any socket operation on every invocation. -/
theorem c5_config_errors_cex :
    (fun _ => Except.error "missing protocol scheme" :
        String → Except String URLInfo) "://bad"
      = Except.error "missing protocol scheme"
    ∧ executeNC "h" "9" "udp" 5 "://bad"
        { dialOutcome := fun _ _ => .ok (),
          parseURL := fun _ => .error "missing protocol scheme",
          writeOutcome := .ok 0, readRespOutcome := .error "x" }
      = ⟨.ok (), [.dial "udp" "h:9", .print "Connected to h:9 (UDP)",
                  .closeConn]⟩ := by
  decide

/-- C5 amended: an unsupported protocol string is always rejected with a
descriptive error before any socket operation, both in client mode and in
listen mode; a malformed proxy URL is rejected with a descriptive error
before any socket operation whenever the proxy is consulted, namely in
client mode with protocol tcp and a non-empty proxy (with protocol udp the
proxy URL is never examined). -/
theorem c5_config_errors (host port protocol : String) (timeout : Nat)
    (proxy : String) (w : World) (port2 protocol2 : String)
    (lw : ListenWorld) :
    (protocol ≠ "tcp" → protocol ≠ "udp" →
      executeNC host port protocol timeout proxy w
        = ⟨.error ("unsupported protocol: " ++ protocol), []⟩)
    ∧ (protocol2 ≠ "tcp" → protocol2 ≠ "udp" →
      executeNCListen port2 protocol2 lw
        = ⟨.returnedErr ("unsupported protocol: " ++ protocol2), []⟩)
    ∧ (∀ e, proxy ≠ "" → w.parseURL proxy = .error e →
      executeNC host port "tcp" timeout proxy w
        = ⟨.error ("invalid proxy URL: " ++ e), []⟩) := by
  refine ⟨?_, ?_, ?_⟩
  · intro h1 h2; simp [executeNC, h1, h2]
  · intro h1 h2; simp [executeNCListen, h1, h2]
  · intro e hne hpe; simp [executeNC, executeTCPProxy, hne, hpe]

/-- Concrete instance of c5_config_errors: protocol "icmp" in both modes,
and a malformed tcp proxy URL. -/
theorem c5_config_errors_witness :
    executeNC "h" "9" "icmp" 5 ""
      { dialOutcome := fun _ _ => .ok (),
        parseURL := fun _ => .error "missing protocol scheme",
        writeOutcome := .ok 0, readRespOutcome := .error "x" }
      = ⟨.error ("unsupported protocol: " ++ "icmp"), []⟩
    ∧ executeNCListen "9" "icmp"
        { bindOutcome := fun _ _ => .ok (), accepts := [], udpSteps := [] }
      = ⟨.returnedErr ("unsupported protocol: " ++ "icmp"), []⟩
    ∧ executeNC "h" "9" "tcp" 5 "://bad"
        { dialOutcome := fun _ _ => .ok (),
          parseURL := fun _ => .error "missing protocol scheme",
          writeOutcome := .ok 0, readRespOutcome := .error "x" }
      = ⟨.error ("invalid proxy URL: " ++ "missing protocol scheme"), []⟩ := by
  have h := c5_config_errors "h" "9" "icmp" 5 "://bad"
    { dialOutcome := fun _ _ => .ok (),
      parseURL := fun _ => .error "missing protocol scheme",
      writeOutcome := .ok 0, readRespOutcome := .error "x" }
    "9" "icmp"
    { bindOutcome := fun _ _ => .ok (), accepts := [], udpSteps := [] }
  exact ⟨h.1 (by decide) (by decide), h.2.1 (by decide) (by decide),
         h.2.2 "missing protocol scheme" (by decide) rfl⟩

/-- C6 counterexample: when the proxy answers the status line
"HTTP/1.1 200 OK" followed by a malformed header line, Go's http.ReadResponse
fails with the parse error "malformed MIME header line: Bad Header"
(modelled by the readRespOutcome oracle), and the resulting hard error does
not include the proxy's status line. -/
theorem c6_malformed_response_cex :
    (executeTCPProxy "h:80" 5 "http://p:9"
      { dialOutcome := fun _ _ => .ok (),
        parseURL := fun _ => .ok ⟨"p:9"⟩,
        writeOutcome := .ok 7,
        readRespOutcome :=
          .error "malformed MIME header line: Bad Header" }).result
      = .error
          "failed to read proxy response: malformed MIME header line: Bad Header"
    ∧ strContainsSub
        "failed to read proxy response: malformed MIME header line: Bad Header"
        "HTTP/1.1 200 OK" = false
    ∧ strContainsSub
        "failed to read proxy response: malformed MIME header line: Bad Header"
        "200 OK" = false := by
  decide

/-- C6 amended: if the proxy's response to the CONNECT request is malformed
or unparseable (http.ReadResponse fails), the negotiator fails with the hard
error "failed to read proxy response: ..." wrapping the parse error and
closes the proxy connection; the proxy's status line appears in an error
only on the other branch, where a response was parsed but had a non-200
status. -/
theorem c6_malformed_response (address proxyURL : String) (timeout n : Nat)
    (w : World) (u : URLInfo) (e : String)
    (hparse : w.parseURL proxyURL = .ok u)
    (hdial : w.dialOutcome "tcp" u.host = .ok ())
    (hw : w.writeOutcome = .ok n)
    (hr : w.readRespOutcome = .error e) :
    executeTCPProxy address timeout proxyURL w
      = ⟨.error ("failed to read proxy response: " ++ e),
         [.dial "tcp" u.host,
          .connWrite ("CONNECT " ++ address ++ " HTTP/1.1\r\nHost: " ++
                      address ++ "\r\n\r\n"),
          .readResponse, .closeConn]⟩ := by
  simp [executeTCPProxy, hparse, hdial, hw, hr]

/-- Concrete instance of c6_malformed_response: the read of the proxy's
response fails with "unexpected EOF". -/
theorem c6_malformed_response_witness :
    executeTCPProxy "h:80" 5 "http://p:9"
      { dialOutcome := fun _ _ => .ok (),
        parseURL := fun _ => .ok ⟨"p:9"⟩,
        writeOutcome := .ok 7,
        readRespOutcome := .error "unexpected EOF" }
      = ⟨.error ("failed to read proxy response: " ++ "unexpected EOF"),
         [.dial "tcp" "p:9",
          .connWrite ("CONNECT " ++ "h:80" ++ " HTTP/1.1\r\nHost: " ++
                      "h:80" ++ "\r\n\r\n"),
          .readResponse, .closeConn]⟩ :=
  c6_malformed_response "h:80" "http://p:9" 5 7
    { dialOutcome := fun _ _ => .ok (),
      parseURL := fun _ => .ok ⟨"p:9"⟩,
      writeOutcome := .ok 7,
      readRespOutcome := .error "unexpected EOF" }
    ⟨"p:9"⟩ "unexpected EOF" rfl rfl rfl rfl

/-- C7: in client mode with no proxy, a failing dial (unreachable address)
makes the process exit with status 1 and print an error message containing
"failed to establish", for both tcp and udp. -/
theorem c7_unreachable_dial (host port protocol : String) (timeout : Nat)
    (w : World) (e : String)
    (hp : protocol = "tcp" ∨ protocol = "udp")
    (hd : w.dialOutcome protocol (joinHostPort host port) = .error e) :
    (ncRunClient host port protocol timeout "" w).1 = some 1
    ∧ ∃ m, Event.print m ∈ (ncRunClient host port protocol timeout "" w).2
        ∧ strContainsSub m "failed to establish" = true := by
  rcases hp with hp | hp <;> subst hp
  · have hrun : ncRunClient host port "tcp" timeout "" w
        = (some 1, [.dial "tcp" (joinHostPort host port),
            .print ("Error executing nc: " ++
              ("failed to establish TCP connection: " ++ e))]) := by
      simp [ncRunClient, executeNC, executeTCP, hd]
    refine ⟨by rw [hrun],
      ⟨"Error executing nc: " ++ ("failed to establish TCP connection: " ++ e),
       by rw [hrun]; simp, ?_⟩⟩
    refine strContainsSub_of_data _ _ ("Error executing nc: ".data)
      (" TCP connection: ".data ++ e.data) ?_
    have hsplit : ("failed to establish TCP connection: " : String).data
        = ("failed to establish" : String).data ++
          (" TCP connection: " : String).data := by decide
    simp [strData_append, hsplit, List.append_assoc]
  · have hrun : ncRunClient host port "udp" timeout "" w
        = (some 1, [.dial "udp" (joinHostPort host port),
            .print ("Error executing nc: " ++
              ("failed to establish UDP connection: " ++ e))]) := by
      simp [ncRunClient, executeNC, executeUDP, hd]
    refine ⟨by rw [hrun],
      ⟨"Error executing nc: " ++ ("failed to establish UDP connection: " ++ e),
       by rw [hrun]; simp, ?_⟩⟩
    refine strContainsSub_of_data _ _ ("Error executing nc: ".data)
      (" UDP connection: ".data ++ e.data) ?_
    have hsplit : ("failed to establish UDP connection: " : String).data
        = ("failed to establish" : String).data ++
          (" UDP connection: " : String).data := by decide
    simp [strData_append, hsplit, List.append_assoc]

/-- Concrete instance of c7_unreachable_dial: a refused direct TCP dial. -/
theorem c7_unreachable_dial_witness :
    (ncRunClient "h" "81" "tcp" 5 ""
      { dialOutcome := fun _ _ => .error "connection refused",
        parseURL := fun _ => .error "x",
        writeOutcome := .ok 0, readRespOutcome := .error "x" }).1 = some 1
    ∧ ∃ m, Event.print m ∈ (ncRunClient "h" "81" "tcp" 5 ""
        { dialOutcome := fun _ _ => .error "connection refused",
          parseURL := fun _ => .error "x",
          writeOutcome := .ok 0, readRespOutcome := .error "x" }).2
        ∧ strContainsSub m "failed to establish" = true :=
  c7_unreachable_dial "h" "81" "tcp" 5
    { dialOutcome := fun _ _ => .error "connection refused",
      parseURL := fun _ => .error "x",
      writeOutcome := .ok 0, readRespOutcome := .error "x" }
    "connection refused" (Or.inl rfl) rfl

/-- C8: in client mode with protocol udp the proxy URL is ignored: the run
equals the direct UDP dial, equals the run with an empty proxy, and a
malformed proxy URL (url.Parse failing on it) produces no error when the
UDP dial succeeds. -/
theorem c8_udp_ignores_proxy (host port : String) (timeout : Nat)
    (proxy : String) (w : World) :
    executeNC host port "udp" timeout proxy w
      = executeUDP (joinHostPort host port) timeout w
    ∧ executeNC host port "udp" timeout proxy w
      = executeNC host port "udp" timeout "" w
    ∧ (∀ e, w.parseURL proxy = .error e →
        w.dialOutcome "udp" (joinHostPort host port) = .ok () →
        (executeNC host port "udp" timeout proxy w).result = .ok ()) := by
  refine ⟨by simp [executeNC], by simp [executeNC], ?_⟩
  intro e hpe hd
  simp [executeNC, executeUDP, hd]

/-- Concrete instance of c8_udp_ignores_proxy: a malformed proxy URL with a
successful UDP dial still succeeds. -/
theorem c8_udp_ignores_proxy_witness :
    (executeNC "h" "9" "udp" 5 "://bad"
      { dialOutcome := fun _ _ => .ok (),
        parseURL := fun _ => .error "missing protocol scheme",
        writeOutcome := .ok 0, readRespOutcome := .error "x" }).result
      = .ok () :=
  (c8_udp_ignores_proxy "h" "9" 5 "://bad"
    { dialOutcome := fun _ _ => .ok (),
      parseURL := fun _ => .error "missing protocol scheme",
      writeOutcome := .ok 0, readRespOutcome := .error "x" }).2.2
    "missing protocol scheme" rfl rfl

/-- C9: the TCP relay handler closes the accepted socket as soon as
Direction B (socket to stdout) terminates: the close is the last effect and
follows immediately after Direction B's writes, the handler spawns the
detached Direction A task and never joins or cancels it, and the socket is
closed exactly once. -/
theorem c9_relay_closes_socket (remoteAddr : String) (sockIn : List String) :
    (handleTCPConnection remoteAddr sockIn).getLast? = some Event.closeConn
    ∧ Event.spawnDirA ∈ handleTCPConnection remoteAddr sockIn
    ∧ Event.joinDirA ∉ handleTCPConnection remoteAddr sockIn
    ∧ (handleTCPConnection remoteAddr sockIn).count Event.closeConn = 1
    ∧ handleTCPConnection remoteAddr sockIn
        = ([.print ("Accepted connection from " ++ remoteAddr), .spawnDirA]
           ++ sockIn.map Event.stdoutWrite) ++ [.closeConn] := by
  have hshape : handleTCPConnection remoteAddr sockIn
      = ([.print ("Accepted connection from " ++ remoteAddr), .spawnDirA]
         ++ sockIn.map Event.stdoutWrite) ++ [.closeConn] := by
    simp [handleTCPConnection]
  have h0 : (sockIn.map Event.stdoutWrite).count Event.closeConn = 0 :=
    List.count_eq_zero.mpr (by simp)
  refine ⟨?_, ?_, ?_, ?_, hshape⟩
  · rw [hshape]; exact List.getLast?_concat _
  · simp [handleTCPConnection]
  · simp [handleTCPConnection]
  · rw [hshape]; simp [List.count_append, h0]

